import Mathlib

/-!
Verification of the Prior-Authorization (PA) response generator
(`streamlit_app.py`): a pure, per-record classification engine deriving
body part, laterality (side), surgery type and objective findings from an
intake record, plus cross-field anomaly detection.

Embedding notes.
* A record (`Row`) is a finite map from field names to string values;
  an absent key models a missing column (Python `row.get(k, "")`).
* Lower-casing is modelled by `lowerStr` (ASCII `Char.toLower` mapped over
  the code points, matching the ASCII inputs the rules use; Python
  `str.lower`), and `str.startswith` by `strStartsWith` on code points.
* The regular expression `\bbilat(er(al)?)?\b|\bboth\b` used by `side` is
  modelled by `bilatRegex`: existence of a whole-word occurrence of one
  of the literals "bilat", "bilater", "bilateral", "both", where word
  characters are modelled as ASCII alphanumerics and underscore.
* `pd.to_datetime` is an external library call: `generate` and `fmt_date`
  are parameterised over an arbitrary date parser `String → Option PDate`,
  and `strftime "%d-%m-%Y"` is modelled by `renderDate`.
-/

namespace PA

/-- A raw intake record: field name ↦ raw string value; missing keys model
missing columns. -/
structure Row where
  fields : List (String × String)

/-- `row.get(k)` (no default): the stored value, or `none` when absent. -/
def Row.getS (r : Row) (k : String) : Option String :=
  (r.fields.find? (fun p => p.1 == k)).map (fun p => p.2)

/-- `str(row.get(k, ""))`: the stored value, or `""` when absent. -/
def Row.getD (r : Row) (k : String) : String := (r.getS k).getD ""

/-- Model of Python `str.lower` (ASCII): lower-case every code point. -/
def lowerStr (s : String) : String := ⟨s.data.map Char.toLower⟩

/-- Model of Python `str.startswith`: code-point-list prefix. -/
def strStartsWith (s p : String) : Bool := p.data.isPrefixOf s.data

/-- `std(text) = str(text).lower()` from the source. -/
def std (text : String) : String := lowerStr text

/-- Python substring containment `sub in hay`. -/
def containsSubstr (hay sub : String) : Bool :=
  (List.range (hay.data.length + 1)).any (fun i => sub.data.isPrefixOf (hay.data.drop i))

/-- `any_kw(text, kws) = any(k in std(text) for k in kws)` from the source. -/
def any_kw (text : String) (kws : List String) : Bool :=
  kws.any (fun k => containsSubstr (std text) k)

/-- The `KEYWORDS` table of the source, in declaration order. -/
def KEYWORDS : List (String × List String) :=
  [("Upper Extremity", ["shoulder", "elbow", "wrist", "hand", "arm"]),
   ("Lower Extremity", ["hip", "thigh", "knee", "ankle", "foot", "leg"]),
   ("Spine/Trunk",     ["spine", "back", "lumbar", "thoracic", "cervical"]),
   ("Head/Face/Jaw",   ["head", "face", "jaw", "tmj", "concussion"])]

/-- The `PREFIX_BUCKETS` table of the source (diagnosis-code starts). -/
def PREFIX_BUCKETS : List (String × List String) :=
  [("Upper Extremity", ["M75", "S4", "S43", "S45"]),
   ("Lower Extremity", ["M17", "S83", "S82", "S86"]),
   ("Spine/Trunk",     ["M54", "S23", "S33", "M51", "M50"]),
   ("Head/Face/Jaw",   ["S02", "S06"])]

/-- The four anatomical category names (key set of both tables). -/
def CATEGORIES : List String :=
  ["Upper Extremity", "Lower Extremity", "Spine/Trunk", "Head/Face/Jaw"]

/-- The `ICD_LATERALITY` table of the source. -/
def ICD_LATERALITY : List (Char × String) :=
  [('1', "Right"), ('2', "Left"), ('3', "Bilateral")]

/-- The `SURGERY_KW` table of the source, in declaration order. -/
def SURGERY_KW : List (String × List String) :=
  [("Joint Replacement Surgery", ["replacement", "arthroplasty", "tkr"]),
   ("Arthroscopic/Minimally Invasive Joint Surgery", ["arthroscopic", "arthroscopy", "scope"]),
   ("Spine Surgery", ["laminectomy", "fusion", "discectomy"]),
   ("Fracture/Trauma Repair", ["fracture", "orif", "hardware", "fixation"])]

/-- The `SPECIAL_TESTS` list of the source. -/
def SPECIAL_TESTS : List String :=
  ["lachman", "hawkins", "phalen", "drawer", "apprehension"]

/-- The raw (non-lower-cased) diagnosis code of a record. -/
def icdOf (r : Row) : String := r.getD "Primary_Diagnosis_Code"

/-- The lower-cased text blob `(Diagnosis_Description + " " + Assessment).lower()`
searched by the body-part classifier. -/
def bpBlob (r : Row) : String :=
  lowerStr (r.getD "Diagnosis_Description" ++ " " ++ r.getD "Assessment")

/-- Code signal: the raw diagnosis code starts with one of `cat`'s registered
code starts (Python `icd.startswith(tuple)`). -/
def codeHit (r : Row) (cat : String) : Bool :=
  ((PREFIX_BUCKETS.lookup cat).getD []).any (fun p => strStartsWith (icdOf r) p)

/-- Text signal: the body-part blob contains one of `cat`'s keywords. -/
def kwHit (r : Row) (cat : String) : Bool :=
  any_kw (bpBlob r) ((KEYWORDS.lookup cat).getD [])

/-- A category is matched when either its code signal or its text signal fires. -/
def catMatchB (r : Row) (cat : String) : Bool := codeHit r cat || kwHit r cat

/-- The set of matched categories (as the sublist of the four distinct
category names, so its length is the cardinality of the Python `matches` set). -/
def catMatches (r : Row) : List String := CATEGORIES.filter (catMatchB r)

/-- `body_part(row)` from the source: the unique matched category, the
multi-area label when several matched, `""` when none matched. -/
def body_part (r : Row) : String :=
  match catMatches r with
  | [c] => c
  | [] => ""
  | _ => "Multiple Areas / Systemic"

/-- ASCII model of the regex word-character class `\w`. -/
def isWordChar (c : Char) : Bool := c.isAlphanum || c == '_'

/-- The token `tok` occurs in `hay` at position `i` bounded by word
boundaries (`\btok\b` matching at `i`). -/
def wordOccursAt (hay tok : List Char) (i : Nat) : Bool :=
  tok.isPrefixOf (hay.drop i)
  && (match i with
      | 0 => true
      | Nat.succ j =>
        match hay.get? j with
        | some c => !isWordChar c
        | none => true)
  && (match hay.get? (i + tok.length) with
      | some c => !isWordChar c
      | none => true)

/-- `\btok\b` matches somewhere in `hay`. -/
def hasWord (hay tok : String) : Bool :=
  (List.range (hay.data.length + 1)).any (fun i => wordOccursAt hay.data tok.data i)

/-- `re.search(r"\bbilat(er(al)?)?\b|\bboth\b", blob)` is truthy: a whole-word
occurrence of one of the four literals the pattern denotes. -/
def bilatRegex (blob : String) : Bool :=
  ["bilat", "bilater", "bilateral", "both"].any (fun t => hasWord blob t)

/-- The lower-cased blob joined from the four fields the laterality resolver
searches. -/
def sideBlob (r : Row) : String :=
  String.intercalate " "
    (["Diagnosis_Description", "Assessment", "Range_of_Motion", "Strength"].map
      (fun c => lowerStr (r.getD c)))

/-- The code-position laterality signal: `icd[4]` looked up in
`ICD_LATERALITY` when `len(icd) >= 5`. -/
def latAt (r : Row) : Option String :=
  if 5 ≤ (icdOf r).data.length then
    match (icdOf r).data.get? 4 with
    | some c => ICD_LATERALITY.lookup c
    | none => none
  else none

/-- `side(row, part)` from the source. -/
def side (r : Row) (part : String) : String :=
  match latAt r with
  | some s => s
  | none =>
    let blob := sideBlob r
    if bilatRegex blob then "Bilateral"
    else if containsSubstr blob "left" then "Left"
    else if containsSubstr blob "right" then "Right"
    else if part == "Spine/Trunk" || part == "Head/Face/Jaw" then "Not Applicable"
    else ""

/-- The truthy tokens recognized for `Had_Surgery`. -/
def TRUTHY : List String := ["yes", "y", "true", "1"]

/-- `std(row.get("Had_Surgery","")) in ("yes","y","true","1")`. -/
def hadSurgery (r : Row) : Bool := TRUTHY.contains (std (r.getD "Had_Surgery"))

/-- The lower-cased blob joined from the three fields the surgery-type
classifier searches. -/
def surgBlob (r : Row) : String :=
  String.intercalate " "
    (["Diagnosis_Description", "Assessment", "Justification_for_PT"].map
      (fun c => lowerStr (r.getD c)))

/-- `surgery_type(row)` from the source: `""` unless surgery is flagged, else
the first keyword bucket that matches, else the fixed fallback label. -/
def surgery_type (r : Row) : String :=
  if hadSurgery r then
    match SURGERY_KW.find? (fun p => any_kw (surgBlob r) p.2) with
    | some p => p.1
    | none => "Other Orthopedic/Soft Tissue Surgery"
  else ""

/-- Condition of the Restricted-ROM tag, on `rom = std(Range_of_Motion)`:
`any(x in rom for x in ["limited","restriction"]) or "rom" in rom`. -/
def romCondB (r : Row) : Bool :=
  let rom := std (r.getD "Range_of_Motion")
  (["limited", "restriction"].any (fun x => containsSubstr rom x)) || containsSubstr rom "rom"

/-- Condition of the Strength-Deficits tag, on `std(Strength)`. -/
def strenCondB (r : Row) : Bool :=
  let stren := std (r.getD "Strength")
  ["/5", "weak", "deficit"].any (fun x => containsSubstr stren x)

/-- Condition of the Pain/Swelling tag, on `std(Assessment)`. -/
def painCondB (r : Row) : Bool :=
  let asses := std (r.getD "Assessment")
  ["pain", "tender", "swelling"].any (fun x => containsSubstr asses x)

/-- Condition of the Balance/Gait tag, on `std(Assessment)`. -/
def gaitCondB (r : Row) : Bool :=
  let asses := std (r.getD "Assessment")
  ["gait", "balance"].any (fun x => containsSubstr asses x)

/-- Condition of the Positive-Special-Tests tag, on `std(Assessment)`. -/
def specialCondB (r : Row) : Bool :=
  any_kw (std (r.getD "Assessment")) SPECIAL_TESTS

/-- The ordered list of emitted objective-finding tags of `findings(row)`:
the source's five independent `if` blocks, in source order, each condition
factored into the named predicate reading exactly the field the source
reads. -/
def findingsList (r : Row) : List String :=
  (if romCondB r then ["Restricted ROM"] else [])
  ++ (if strenCondB r then ["Strength Deficits"] else [])
  ++ (if painCondB r then ["Pain/Swelling"] else [])
  ++ (if gaitCondB r then ["Balance/Gait Impaired"] else [])
  ++ (if specialCondB r then ["Positive Special Tests"] else [])

/-- `findings(row)` from the source. -/
def findings (r : Row) : String := String.intercalate "; " (findingsList r)

/-- A calendar date as produced by the external `pd.to_datetime` parser. -/
structure PDate where
  day : Nat
  month : Nat
  year : Nat

/-- Two-digit zero-padded rendering (`strftime` `%d` / `%m`). -/
def pad2 (n : Nat) : String := if n < 10 then "0" ++ toString n else toString n

/-- Four-digit zero-padded rendering (`strftime` `%Y`). -/
def pad4 (n : Nat) : String :=
  if n < 10 then "000" ++ toString n
  else if n < 100 then "00" ++ toString n
  else if n < 1000 then "0" ++ toString n
  else toString n

/-- `strftime("%d-%m-%Y")`. -/
def renderDate (d : PDate) : String :=
  pad2 d.day ++ "-" ++ pad2 d.month ++ "-" ++ pad4 d.year

/-- `fmt_date(val)` from the source, parameterised over the external parser:
missing (`pd.isna`) or empty values give `""`; a parse success is rendered
`DD-MM-YYYY`; a parse failure returns the original value unchanged. -/
def fmt_date (parse : String → Option PDate) : Option String → String
  | none => ""
  | some v =>
    if v == "" then ""
    else
      match parse v with
      | some d => renderDate d
      | none => v

/-- The assembled output record `rec` built inside `generate` (field for
field, in the source's order). -/
structure OutRec where
  patientID : Option String
  name : Option String
  dob : String
  payer : Option String
  policy : Option String
  refMD : Option String
  icd10 : Option String
  bodyPart : String
  side : String
  injuryDate : String
  hadSurgeryS : String
  surgeryDate : String
  surgeryTypeS : String
  objectiveFindings : String

/-- One loop iteration of `generate`: assemble the output record of `r`. -/
def mkRec (parse : String → Option PDate) (r : Row) : OutRec :=
  let part := body_part r
  let sd := side r part
  let surg := hadSurgery r
  { patientID := r.getS "Patient_ID"
    name := r.getS "Patient_Name"
    dob := fmt_date parse (r.getS "Date_of_Birth")
    payer := r.getS "Insurance_Payer"
    policy := r.getS "Policy_Number"
    refMD := r.getS "Referring_Physician"
    icd10 := r.getS "Primary_Diagnosis_Code"
    bodyPart := part
    side := sd
    injuryDate := fmt_date parse (r.getS "Date_of_Injury_Onset")
    hadSurgeryS := if surg then "Yes" else "No"
    surgeryDate := if surg then fmt_date parse (r.getS "Date_of_Surgery") else ""
    surgeryTypeS := surgery_type r
    objectiveFindings := findings r }

/-- The per-record issue list of `generate` (rule-declaration order). -/
def recIssues (parse : String → Option PDate) (r : Row) : List String :=
  let o := mkRec parse r
  (if o.bodyPart == "" then ["Missing Body_Part"] else [])
  ++ (if o.side == "" then ["Missing Side"] else [])
  ++ (if hadSurgery r && o.surgeryDate == "" then ["Surgery flagged without date"] else [])

/-- `generate(df)` from the source: the output rows, and the anomaly rows
(issue string paired with the record) for exactly those records whose issue
list is non-empty. -/
def generate (parse : String → Option PDate) (rows : List Row) :
    List OutRec × List (String × OutRec) :=
  (rows.map (mkRec parse),
   rows.filterMap (fun r =>
     let issues := recIssues parse r
     if issues.isEmpty then none
     else some (String.intercalate "; " issues, mkRec parse r)))

/-! Claim-worded definitions, to be compared with the source definitions. -/

/-- The character at (0-based) index 4 of a code string (arbitrary default,
only consulted under a length-at-least-5 guard). -/
def char4 (icd : String) : Char := icd.data.getD 4 ' '

/-- The laterality resolver exactly as claim C2 words it: the index-4 code
rule; then whole words "bilateral", "bilat" or "both" (only those three);
then substring "left" before "right"; then the midline default. -/
def sideClaimed (r : Row) (part : String) : String :=
  let icd := icdOf r
  if 5 ≤ icd.data.length ∧ char4 icd = '1' then "Right"
  else if 5 ≤ icd.data.length ∧ char4 icd = '2' then "Left"
  else if 5 ≤ icd.data.length ∧ char4 icd = '3' then "Bilateral"
  else
    let blob := sideBlob r
    if ["bilateral", "bilat", "both"].any (fun t => hasWord blob t) then "Bilateral"
    else if containsSubstr blob "left" then "Left"
    else if containsSubstr blob "right" then "Right"
    else if part == "Spine/Trunk" || part == "Head/Face/Jaw" then "Not Applicable"
    else ""

/-- The laterality resolver as claim C2 must be amended: the bilateral-text
rule also fires on the whole word "bilater" (the regex
`\bbilat(er(al)?)?\b` denotes the four words bilat, bilater, bilateral). -/
def sideAmended (r : Row) (part : String) : String :=
  let icd := icdOf r
  if 5 ≤ icd.data.length ∧ char4 icd = '1' then "Right"
  else if 5 ≤ icd.data.length ∧ char4 icd = '2' then "Left"
  else if 5 ≤ icd.data.length ∧ char4 icd = '3' then "Bilateral"
  else
    let blob := sideBlob r
    if ["bilateral", "bilater", "bilat", "both"].any (fun t => hasWord blob t) then "Bilateral"
    else if containsSubstr blob "left" then "Left"
    else if containsSubstr blob "right" then "Right"
    else if part == "Spine/Trunk" || part == "Head/Face/Jaw" then "Not Applicable"
    else ""

/-- The surgery-type classifier exactly as claim C4 words it: the four
buckets tried in declaration order, first match wins, fixed fallback. -/
def surgeryTypeClaimed (r : Row) : String :=
  let blob := surgBlob r
  if any_kw blob ["replacement", "arthroplasty", "tkr"] then "Joint Replacement Surgery"
  else if any_kw blob ["arthroscopic", "arthroscopy", "scope"] then
    "Arthroscopic/Minimally Invasive Joint Surgery"
  else if any_kw blob ["laminectomy", "fusion", "discectomy"] then "Spine Surgery"
  else if any_kw blob ["fracture", "orif", "hardware", "fixation"] then "Fracture/Trauma Repair"
  else "Other Orthopedic/Soft Tissue Surgery"

/-- The Restricted-ROM condition exactly as claim C6 words it: "rom" must
occur as a standalone token, not merely as a substring. -/
def romClaimed (r : Row) : Bool :=
  let rom := std (r.getD "Range_of_Motion")
  containsSubstr rom "limited" || containsSubstr rom "restriction" || hasWord rom "rom"

/-- The five objective-finding tags in their fixed evaluation order. -/
def TAGS : List String :=
  ["Restricted ROM", "Strength Deficits", "Pain/Swelling", "Balance/Gait Impaired",
   "Positive Special Tests"]

/-- Which tag fires on which designated field (claim C7's reading). -/
def tagFires (r : Row) (t : String) : Bool :=
  if t == "Restricted ROM" then romCondB r
  else if t == "Strength Deficits" then strenCondB r
  else if t == "Pain/Swelling" then painCondB r
  else if t == "Balance/Gait Impaired" then gaitCondB r
  else if t == "Positive Special Tests" then specialCondB r
  else false

/-! Concrete records and parsers used by witnesses and counterexamples. -/

/-- A date parser that always fails. -/
def parseNone : String → Option PDate := fun _ => none

/-- A date parser knowing one date, `05/01/2020` = 5 January 2020. -/
def parseEx : String → Option PDate :=
  fun s => if s == "05/01/2020" then some ⟨5, 1, 2020⟩ else none

def rowKnee : Row := ⟨[("Diagnosis_Description", "left knee")]⟩

def rowMulti : Row :=
  ⟨[("Primary_Diagnosis_Code", "S43"), ("Diagnosis_Description", "ankle sprain")]⟩

def rowEmpty : Row := ⟨[]⟩

def rowBilater : Row := ⟨[("Diagnosis_Description", "bilater left")]⟩

def rowS4321 : Row :=
  ⟨[("Primary_Diagnosis_Code", "S4321"), ("Assessment", "right shoulder pain")]⟩

def rowNoSurg : Row :=
  ⟨[("Had_Surgery", "no"), ("Date_of_Surgery", "05/01/2020"),
    ("Diagnosis_Description", "left knee")]⟩

def rowSurg : Row :=
  ⟨[("Had_Surgery", "Yes"), ("Assessment", "s/p fracture orif with arthroscopy")]⟩

def rowProm : Row := ⟨[("Range_of_Motion", "prominent")]⟩

def rowLim : Row :=
  ⟨[("Range_of_Motion", "limited flexion"), ("Assessment", "severe pain, positive lachman")]⟩

def rowBack : Row := ⟨[("Diagnosis_Description", "back strain")]⟩

def rowHeadKnee : Row := ⟨[("Diagnosis_Description", "head and knee")]⟩

/-- The rule table of claim C7: tag label paired with the predicate on its
own designated field, in the fixed evaluation order. -/
def TAG_RULES : List (String × (Row → Bool)) :=
  [("Restricted ROM", romCondB), ("Strength Deficits", strenCondB),
   ("Pain/Swelling", painCondB), ("Balance/Gait Impaired", gaitCondB),
   ("Positive Special Tests", specialCondB)]

/-! ## Theorems -/

/-- The four-literal `any` form of the bilateral regex, in the token order
the amended claim lists. -/
theorem bilatRegex_eq_any (s : String) :
    bilatRegex s = (["bilateral", "bilater", "bilat", "both"].any (fun t => hasWord s t)) := by
  cases h1 : hasWord s "bilat" <;> cases h2 : hasWord s "bilater" <;>
    cases h3 : hasWord s "bilateral" <;> cases h4 : hasWord s "both" <;>
    simp [bilatRegex, h1, h2, h3, h4]

/-- Claim C1: the body-part classifier collects the set of categories matched
by code signal (raw code starts with a registered code start) or text signal
(lower-cased blob contains a registered keyword); it returns the category when
exactly one matched, "Multiple Areas / Systemic" when two or more matched (in
particular when the code matches Upper Extremity while the text matches a
Lower-Extremity keyword), and `""` when none matched. -/
theorem claim_C1 (r : Row) :
    (catMatches r = [] → body_part r = "")
    ∧ (∀ c, catMatches r = [c] → body_part r = c)
    ∧ (2 ≤ (catMatches r).length → body_part r = "Multiple Areas / Systemic")
    ∧ (codeHit r "Upper Extremity" = true → kwHit r "Lower Extremity" = true →
        body_part r = "Multiple Areas / Systemic") := by
  have hmulti : 2 ≤ (catMatches r).length → body_part r = "Multiple Areas / Systemic" := by
    intro h
    rcases hm : catMatches r with _ | ⟨a, _ | ⟨b, l⟩⟩
    · rw [hm] at h; simp at h
    · rw [hm] at h; simp at h
    · simp [body_part, hm]
  refine ⟨?_, ?_, hmulti, ?_⟩
  · intro h; simp [body_part, h]
  · intro c h; simp [body_part, h]
  · intro hU hL
    have hu : catMatchB r "Upper Extremity" = true := by simp [catMatchB, hU]
    have hl : catMatchB r "Lower Extremity" = true := by simp [catMatchB, hL]
    refine hmulti ?_
    simp [catMatches, CATEGORIES, List.filter_cons, hu, hl]

/-- Witness for claim C1 at three concrete records: a unique Lower-Extremity
keyword match, a code-vs-text double match, and a no-match record. -/
theorem claim_C1_witness :
    body_part rowKnee = "Lower Extremity"
    ∧ body_part rowMulti = "Multiple Areas / Systemic"
    ∧ body_part rowEmpty = "" :=
  ⟨(claim_C1 rowKnee).2.1 "Lower Extremity" (by decide),
   (claim_C1 rowMulti).2.2.2 (by decide) (by decide),
   (claim_C1 rowEmpty).1 (by decide)⟩

/-- Claim C2, counterexample: the blob "bilater left" makes the resolver
return "Bilateral" (the regex `\bbilat(er(al)?)?\b` matches the whole word
"bilater"), while the claimed rule — whole words "bilateral"/"bilat"/"both"
only, else substring "left" — yields "Left". Moreover the claim's own
instance is wrong: code "S4321" has '1' at index 4, so the resolver returns
"Right", not "Left". -/
theorem claim_C2_counterexample :
    (side rowBilater "" = "Bilateral" ∧ sideClaimed rowBilater "" = "Left")
    ∧ side rowS4321 "" = "Right" := by decide

/-- Claim C2 (amended): the laterality resolver equals the claimed strict
precedence once the bilateral-text rule is read as matching the whole words
"bilateral", "bilater", "bilat" or "both", and once the code example is
corrected: "S4321" (index-4 character '1') yields "Right" regardless of the
text mentioning "right". -/
theorem claim_C2 :
    (∀ (r : Row) (part : String), side r part = sideAmended r part)
    ∧ side rowS4321 "" = "Right" := by
  refine ⟨?_, by decide⟩
  intro r part
  by_cases hlen : 5 ≤ (icdOf r).data.length
  · have hlen2 : 5 ≤ (icdOf r).length := hlen
    obtain ⟨c, hc⟩ : ∃ c, (icdOf r).data.get? 4 = some c := by
      cases h : (icdOf r).data.get? 4 with
      | some c => exact ⟨c, rfl⟩
      | none => exact absurd (List.get?_eq_none.mp h) (by omega)
    have hc2 : (icdOf r).data[4]? = some c := by rwa [List.get?_eq_getElem?] at hc
    have hchar : char4 (icdOf r) = c := by simp [char4, List.getD, hc2]
    have hlat : latAt r = ICD_LATERALITY.lookup c := by simp [latAt, hlen, hlen2, hc2]
    simp only [side, sideAmended, hlat, hchar, hlen, true_and]
    by_cases e1 : c = '1'
    · simp [ICD_LATERALITY, List.lookup, e1]
    · by_cases e2 : c = '2'
      · simp [ICD_LATERALITY, List.lookup, e1, e2]
      · by_cases e3 : c = '3'
        · simp [ICD_LATERALITY, List.lookup, e1, e2, e3]
        · have b1 : (c == '1') = false := by simp [e1]
          have b2 : (c == '2') = false := by simp [e2]
          have b3 : (c == '3') = false := by simp [e3]
          simp [ICD_LATERALITY, List.lookup, b1, b2, b3, e1, e2, e3, bilatRegex_eq_any]
  · have hlen2 : ¬ 5 ≤ (icdOf r).length := hlen
    have hlat : latAt r = none := by simp [latAt, hlen, hlen2]
    simp only [side, sideAmended, hlat, hlen, false_and, if_neg, not_false_iff]
    simp [hlen, bilatRegex_eq_any]

/-- Claim C3: the surgery-type label is empty iff the derived surgery flag is
false: non-truthy `Had_Surgery` gives exactly `""`, truthy gives a non-empty
label (a keyword bucket's label or the fixed fallback). -/
theorem claim_C3 (r : Row) : surgery_type r = "" ↔ hadSurgery r = false := by
  by_cases h : hadSurgery r
  · simp only [surgery_type, h, if_pos]
    cases hf : SURGERY_KW.find? (fun p => any_kw (surgBlob r) p.2) with
    | none => simp
    | some q =>
      have hq : q ∈ SURGERY_KW := List.mem_of_find?_eq_some hf
      have hne : q.1 ≠ "" := by
        have hall : ∀ x ∈ SURGERY_KW, x.1 ≠ "" := by decide
        exact hall q hq
      simp [hne, h]
  · simp [surgery_type, h]

/-- Witness for claim C3: a non-truthy record gets `""`, a truthy one a
non-empty label. -/
theorem claim_C3_witness :
    surgery_type rowNoSurg = "" ∧ surgery_type rowSurg ≠ "" :=
  ⟨(claim_C3 rowNoSurg).mpr (by decide),
   fun h => absurd ((claim_C3 rowSurg).mp h) (by decide)⟩

/-- Claim C4: for a truthy record the surgery-type classifier tries the four
keyword buckets in declaration order, returns the first matching bucket's
label, and falls back to exactly "Other Orthopedic/Soft Tissue Surgery". -/
theorem claim_C4 (r : Row) (h : hadSurgery r = true) :
    surgery_type r = surgeryTypeClaimed r := by
  cases h1 : any_kw (surgBlob r) ["replacement", "arthroplasty", "tkr"] <;>
  cases h2 : any_kw (surgBlob r) ["arthroscopic", "arthroscopy", "scope"] <;>
  cases h3 : any_kw (surgBlob r) ["laminectomy", "fusion", "discectomy"] <;>
  cases h4 : any_kw (surgBlob r) ["fracture", "orif", "hardware", "fixation"] <;>
    simp [surgery_type, surgeryTypeClaimed, SURGERY_KW, List.find?, h, h1, h2, h3, h4]

/-- Witness for claim C4: a record whose text matches both the arthroscopy
bucket and the later fracture bucket gets the earlier bucket's label. -/
theorem claim_C4_witness :
    surgery_type rowSurg = surgeryTypeClaimed rowSurg
    ∧ surgery_type rowSurg = "Arthroscopic/Minimally Invasive Joint Surgery"
    ∧ any_kw (surgBlob rowSurg) ["fracture", "orif", "hardware", "fixation"] = true :=
  ⟨claim_C4 rowSurg (by decide), by decide, by decide⟩

/-- A `filterMap` whose success predicate is `p` keeps as many elements as
the `filter` by `p`. -/
theorem length_filterMap_eq_length_filter {α β : Type} (f : α → Option β) (p : α → Bool)
    (hf : ∀ a, (f a).isSome = p a) (l : List α) :
    (l.filterMap f).length = (l.filter p).length := by
  induction l with
  | nil => rfl
  | cons a as ih =>
    rw [List.filterMap_cons, List.filter_cons]
    cases hfa : f a with
    | none =>
      have hp : p a = false := by rw [← hf a, hfa]; rfl
      simp [hp, ih]
    | some b =>
      have hp : p a = true := by rw [← hf a, hfa]; rfl
      simp [hp, ih]

/-- Claim C5, counterexample: a single anomaly-free record gives one output
row but an empty anomaly list — the anomaly list does not have one entry per
record, it only holds the records with at least one issue. -/
theorem claim_C5_counterexample :
    (generate parseNone [rowKnee]).1.length = ([rowKnee] : List Row).length
    ∧ ¬ (generate parseNone [rowKnee]).2.length = ([rowKnee] : List Row).length := by decide

/-- Claim C5 (amended): for every input sequence of N records the engine
produces exactly N output records (no drops, no merges), and the anomaly
list holds exactly the records whose issue list is non-empty, so its length
is the number of flagged records, at most N. -/
theorem claim_C5 (parse : String → Option PDate) (rows : List Row) :
    (generate parse rows).1.length = rows.length
    ∧ (generate parse rows).2.length
        = (rows.filter (fun r => !(recIssues parse r).isEmpty)).length
    ∧ (generate parse rows).2.length ≤ rows.length := by
  refine ⟨by simp [generate], ?_, List.length_filterMap_le _ _⟩
  simp only [generate]
  exact length_filterMap_eq_length_filter _ _
    (fun a => by by_cases h : (recIssues parse a).isEmpty <;> simp [h]) rows

/-- Claim C6, counterexample: `Range_of_Motion = "prominent"` contains "rom"
only inside a longer word, yet the Restricted-ROM tag is emitted — the source
tests plain substring containment, not a standalone token. -/
theorem claim_C6_counterexample :
    "Restricted ROM" ∈ findingsList rowProm ∧ romClaimed rowProm = false := by decide

/-- Claim C6 (amended): the restricted-motion tag is emitted exactly when the
lower-cased `Range_of_Motion` text contains "limited", "restriction", or
"rom" as a plain substring (anywhere, even inside a longer word). -/
theorem claim_C6 (r : Row) :
    "Restricted ROM" ∈ findingsList r ↔ romCondB r = true := by
  cases h1 : romCondB r <;> cases h2 : strenCondB r <;> cases h3 : painCondB r <;>
    cases h4 : gaitCondB r <;> cases h5 : specialCondB r <;>
    simp [findingsList, h1, h2, h3, h4, h5]

/-- Witness for claim C6: the tag fires on "limited flexion". -/
theorem claim_C6_witness : "Restricted ROM" ∈ findingsList rowLim :=
  (claim_C6 rowLim).mpr (by decide)

/-- Claim C7: each of the five objective-finding tags is evaluated
independently against its own designated field, all applicable tags are
included, joined in the fixed order of `TAG_RULES`; the claim's example
record yields exactly "Restricted ROM; Pain/Swelling; Positive Special
Tests" and a record matching no rule yields `""`. -/
theorem claim_C7 :
    (∀ r : Row, findings r
        = String.intercalate "; " ((TAG_RULES.filter (fun p => p.2 r)).map Prod.fst))
    ∧ findings rowLim = "Restricted ROM; Pain/Swelling; Positive Special Tests"
    ∧ findings rowEmpty = "" := by
  refine ⟨?_, by decide, by decide⟩
  intro r
  cases h1 : romCondB r <;> cases h2 : strenCondB r <;> cases h3 : painCondB r <;>
    cases h4 : gaitCondB r <;> cases h5 : specialCondB r <;>
    simp [findings, findingsList, TAG_RULES, List.filter_cons, h1, h2, h3, h4, h5]

/-- Claim C8: the engine is total on any record (each classifier returns a
well-defined default on the all-fields-missing record), and the only
recognized failure, a date-parse failure, is recovered locally: missing or
empty date values give `""`, parse successes are rendered `DD-MM-YYYY`, and
parse failures return the original raw value as text. -/
theorem claim_C8 (parse : String → Option PDate) :
    fmt_date parse none = ""
    ∧ fmt_date parse (some "") = ""
    ∧ (∀ s d, s ≠ "" → parse s = some d → fmt_date parse (some s) = renderDate d)
    ∧ (∀ s, s ≠ "" → parse s = none → fmt_date parse (some s) = s)
    ∧ body_part rowEmpty = "" ∧ side rowEmpty (body_part rowEmpty) = ""
    ∧ surgery_type rowEmpty = "" ∧ findings rowEmpty = "" := by
  refine ⟨rfl, rfl, ?_, ?_, by decide, by decide, by decide, by decide⟩
  · intro s d hs hp
    have hb : (s == "") = false := by simp [hs]
    simp [fmt_date, hb, hp]
  · intro s hs hp
    have hb : (s == "") = false := by simp [hs]
    simp [fmt_date, hb, hp]

/-- Witness for claim C8: a parseable date renders as `DD-MM-YYYY`, an
unparsable one passes through, a missing one gives `""`. -/
theorem claim_C8_witness :
    fmt_date parseEx (some "05/01/2020") = "05-01-2020"
    ∧ fmt_date parseEx (some "not a date") = "not a date"
    ∧ fmt_date parseEx none = "" := by
  refine ⟨?_, ?_, (claim_C8 parseEx).1⟩
  · have h := (claim_C8 parseEx).2.2.1 "05/01/2020" ⟨5, 1, 2020⟩ (by decide) (by rfl)
    rw [h]; rfl
  · exact (claim_C8 parseEx).2.2.2.1 "not a date" (by decide) (by rfl)

/-- Claim C9: a record whose `Had_Surgery` is not truthy gets `""` as the
assembled `Surgery_Date` even when a parseable `Date_of_Surgery` is present,
and the "Surgery flagged without date" anomaly can never be raised for it. -/
theorem claim_C9 (parse : String → Option PDate) (r : Row) (h : hadSurgery r = false) :
    (mkRec parse r).surgeryDate = ""
    ∧ "Surgery flagged without date" ∉ recIssues parse r := by
  refine ⟨by simp [mkRec, h], ?_⟩
  by_cases h1 : (mkRec parse r).bodyPart == "" <;>
    by_cases h2 : (mkRec parse r).side == "" <;>
    simp [recIssues, h, h1, h2]

/-- Witness for claim C9: `Had_Surgery = "no"` with a present, parseable
`Date_of_Surgery`: the date is discarded and no surgery anomaly is raised. -/
theorem claim_C9_witness :
    (mkRec parseEx rowNoSurg).surgeryDate = ""
    ∧ "Surgery flagged without date" ∉ recIssues parseEx rowNoSurg
    ∧ fmt_date parseEx (rowNoSurg.getS "Date_of_Surgery") = "05-01-2020" :=
  ⟨(claim_C9 parseEx rowNoSurg (by decide)).1,
   (claim_C9 parseEx rowNoSurg (by decide)).2, by rfl⟩

/-- Claim C10: with no code-position laterality hit and no bilateral, "left"
or "right" text match, the side label is "Not Applicable" exactly when the
body-part label is the string "Spine/Trunk" or "Head/Face/Jaw"; a record
classified "Multiple Areas / Systemic" or `""` instead gets the empty side
label and is flagged "Missing Side". -/
theorem claim_C10 (parse : String → Option PDate) (r : Row)
    (h0 : latAt r = none)
    (h1 : bilatRegex (sideBlob r) = false)
    (h2 : containsSubstr (sideBlob r) "left" = false)
    (h3 : containsSubstr (sideBlob r) "right" = false) :
    (side r (body_part r) = "Not Applicable"
        ↔ (body_part r = "Spine/Trunk" ∨ body_part r = "Head/Face/Jaw"))
    ∧ ((body_part r = "Multiple Areas / Systemic" ∨ body_part r = "") →
        side r (body_part r) = "" ∧ "Missing Side" ∈ recIssues parse r) := by
  have hside : ∀ part, side r part
      = (if part == "Spine/Trunk" || part == "Head/Face/Jaw" then "Not Applicable" else "") := by
    intro part; simp [side, h0, h1, h2, h3]
  constructor
  · rw [hside]
    by_cases hA : body_part r = "Spine/Trunk"
    · simp [hA]
    · by_cases hB : body_part r = "Head/Face/Jaw" <;> simp [hA, hB]
  · intro hm
    have hs : side r (body_part r) = "" := by
      rw [hside]
      rcases hm with hm | hm <;> simp [hm]
    refine ⟨hs, ?_⟩
    have hrs : (mkRec parse r).side = "" := hs
    by_cases hb : (mkRec parse r).bodyPart == "" <;>
      by_cases hsu : (hadSurgery r && ((mkRec parse r).surgeryDate == "")) = true <;>
      simp [recIssues, hrs, hb, hsu]

/-- Witness for claim C10: a spine-only record gets "Not Applicable"; a
head-plus-knee record is "Multiple Areas / Systemic", gets the empty side and
the "Missing Side" anomaly. -/
theorem claim_C10_witness :
    side rowBack (body_part rowBack) = "Not Applicable"
    ∧ side rowHeadKnee (body_part rowHeadKnee) = ""
    ∧ "Missing Side" ∈ recIssues parseEx rowHeadKnee :=
  ⟨(claim_C10 parseEx rowBack (by rfl) (by rfl) (by rfl) (by rfl)).1.mpr
      (Or.inl (by decide)),
   ((claim_C10 parseEx rowHeadKnee (by rfl) (by rfl) (by rfl) (by rfl)).2
      (Or.inl (by decide))).1,
   ((claim_C10 parseEx rowHeadKnee (by rfl) (by rfl) (by rfl) (by rfl)).2
      (Or.inl (by decide))).2⟩

end PA
